import Mathlib

/-!
Verification of the overlay-placement core of the automated_video_edit
repository (src/video_brand_automator.py, src/add_product_placement.py).

The Python code is shallowly embedded: Python floats become rationals,
subprocess / file-system effects become explicit data (probe results,
encoder exit status, an abstract file-system map), and a function that can
raise is modelled as returning the raised message in an Option or a
dedicated constructor.  Every definition below is translated from the named
source lines; comments cite the file and line numbers.
-/

/-! ## String and message constants used by the source -/

-- Separator used by position.split(",") at both call sites.
def strComma : String := ","

-- Separator used when parsing a decimal literal such as 12.5.
def strDot : String := "."

-- The five anchor keywords of pos_map (video_brand_automator.py lines 332-338,
-- add_product_placement.py lines 229-235).
def strCenter : String := "center"

def strTopLeft : String := "top-left"

def strTopRight : String := "top-right"

def strBottomLeft : String := "bottom-left"

def strBottomRight : String := "bottom-right"

-- The coordinate expressions the anchors map to.
def xyCenter : String := "x=(W-w)/2:y=(H-h)/2"

def xyTopLeft : String := "x=0:y=0"

def xyTopRight : String := "x=W-w:y=0"

def xyBottomLeft : String := "x=0:y=H-h"

def xyBottomRight : String := "x=W-w:y=H-h"

-- Error message pieces of get_media_info_ffmpeg
-- (video_brand_automator.py lines 280-284).  The quote characters that the
-- Python source puts around the binary name are omitted here.
def msgCouldNotFind : String := "Could not find "

def msgDownload : String := ". Did you download FFmpeg?"

def msgProbeFailedFor : String := "FFprobe failed for "

def msgColonSep : String := ": "

-- Exception raised by subprocess.run(..., check=True) when ffmpeg exits
-- nonzero (video_brand_automator.py line 365).
def msgEncoderFailed : String := "CalledProcessError"

-- Prefix of the RuntimeError raised by mode_moviepy when the video cannot
-- be loaded (video_brand_automator.py line 175).
def msgCouldNotLoad : String := "Could not load video "

/-! ## Timing calculator

get_overlay_timing, identical in video_brand_automator.py lines 107-124 and
add_product_placement.py lines 58-85. -/

def get_overlay_timing (video_duration start_pct target_duration : ℚ) :
    ℚ × ℚ :=
  let start_time := video_duration * start_pct
  if start_time ≥ video_duration then (start_time, 0)
  else (start_time, min target_duration (video_duration - start_time))

/-! ## Geometry resolver -/

-- calculate_smart_scale (video_brand_automator.py lines 127-156).
def calculate_smart_scale (video_size image_size : ℚ × ℚ)
    (margin_pct : ℚ) : ℚ :=
  let vw := video_size.1
  let vh := video_size.2
  let iw := image_size.1
  let ih := image_size.2
  let safe_w := vw * (1 - 2 * margin_pct)
  let safe_h := vh * (1 - 2 * margin_pct)
  let scale_w := safe_w / iw
  let scale_h := safe_h / ih
  min scale_w scale_h

-- The scale dispatch shared by both backends: an explicit scale is used
-- unchanged, otherwise the smart fit is computed
-- (video_brand_automator.py lines 201-208 and 321-328).
def resolve_scale (scale : Option ℚ) (video_size image_size : ℚ × ℚ)
    (margin : ℚ) : ℚ :=
  match scale with
  | some s => s
  | none => calculate_smart_scale video_size image_size margin

/-! ## Percentage normalization

process_single_video lines 390-397 of video_brand_automator.py; the same
normalization appears at lines 324-333 of add_product_placement.py. -/

def normalize_start_pct (start_percent : ℚ) : ℚ :=
  if start_percent > 1 then start_percent / 100 else start_percent

-- The acceptance test 0.0 <= final_pct <= 1.0.
def start_pct_valid (start_percent : ℚ) : Bool :=
  decide (0 ≤ normalize_start_pct start_percent
    ∧ normalize_start_pct start_percent ≤ 1)

/-! ## Media probe port

get_media_info_ffmpeg (video_brand_automator.py lines 253-284).  The
subprocess call to ffprobe is external; its possible outcomes are passed in
as data: a parsed MediaInfo on success, a FileNotFoundError when the binary
is missing, or any other exception with its message.  The binary name
resolution of get_binary_path is abstracted to the canonical name the code
asks for. -/

structure MediaInfo where
  width : ℤ
  height : ℤ
  duration : ℚ
deriving DecidableEq

inductive ProbeRaw where
  | ok (info : MediaInfo)
  | fileNotFound
  | failed (msg : String)
deriving DecidableEq

def get_media_info_ffmpeg (ffprobe_bin path : String) (raw : ProbeRaw) :
    Except String MediaInfo :=
  match raw with
  | .ok info => .ok info
  | .fileNotFound => .error (msgCouldNotFind ++ ffprobe_bin ++ msgDownload)
  | .failed msg =>
      .error (msgProbeFailedFor ++ path ++ msgColonSep ++ msg)

/-! ## Variant B: the ffmpeg filter-graph backend

mode_ffmpeg_cli (video_brand_automator.py lines 287-365; the structurally
identical function is at add_product_placement.py lines 187-265).  The
single filter_complex string
  [1:v]scale=iw*S:-1[ovr];[0:v][ovr]overlay=XY:enable=between(t,A,B)
is embedded as structured data: the image stream is scaled by factor S with
height argument -1 (the ffmpeg sentinel that preserves the aspect ratio),
and the overlay is gated by the ffmpeg expression between(t, A, B) with
A = start_t and B = end_t = start_t + dur_t.  The Python code prints A and B
with three decimals; the model keeps the exact rationals. -/

structure FilterGraph where
  scale_factor : ℚ
  scale_height : ℤ
  overlay_xy : String
  gate_lo : ℚ
  gate_hi : ℚ
deriving DecidableEq

-- pos_map.get(position, position): unknown keys pass through verbatim
-- (video_brand_automator.py lines 332-339).
def pos_map (position : String) : String :=
  if position = strCenter then xyCenter
  else if position = strTopLeft then xyTopLeft
  else if position = strTopRight then xyTopRight
  else if position = strBottomLeft then xyBottomLeft
  else if position = strBottomRight then xyBottomRight
  else position

-- Semantics of the ffmpeg expression between(x, min, max): it returns 1
-- exactly when min <= x <= max (inclusive at both ends, per the ffmpeg
-- expression documentation).
def ffmpeg_between (t lo hi : ℚ) : Bool :=
  decide (lo ≤ t) && decide (t ≤ hi)

def FilterGraph.visibleAt (g : FilterGraph) (t : ℚ) : Bool :=
  ffmpeg_between t g.gate_lo g.gate_hi

-- The external state one invocation of mode_ffmpeg_cli runs against.
structure FfmpegEnv where
  video_path : String
  image_path : String
  vprobe : ProbeRaw
  iprobe : ProbeRaw
  encoder_ok : Bool
deriving DecidableEq

inductive FfmpegStep where
  | probeFailed (reason : String)
  | passthrough (warned : Bool)
  | render (g : FilterGraph) (overwrite : Bool) (encoder_ok : Bool)
deriving DecidableEq

def ffprobeBin : String := "ffprobe"

def mode_ffmpeg_cli (env : FfmpegEnv) (start_pct duration_sec : ℚ)
    (position : String) (scale : Option ℚ) (margin : ℚ)
    (overwrite : Bool) : FfmpegStep :=
  -- step 1: probe video and image; on exception log the error and return
  match get_media_info_ffmpeg ffprobeBin env.video_path env.vprobe with
  | .error e => .probeFailed e
  | .ok v_info =>
    match get_media_info_ffmpeg ffprobeBin env.image_path env.iprobe with
    | .error e => .probeFailed e
    | .ok i_info =>
      -- step 2: timing
      let t := get_overlay_timing v_info.duration start_pct duration_sec
      if t.2 ≤ 0 then .passthrough true
      else
        -- step 3: scale
        let final_scale := resolve_scale scale
          ((v_info.width : ℚ), (v_info.height : ℚ))
          ((i_info.width : ℚ), (i_info.height : ℚ)) margin
        -- step 4: filter construction and the subprocess invocation
        .render ⟨final_scale, -1, pos_map position, t.1, t.1 + t.2⟩
          overwrite env.encoder_ok

-- The exception, if any, that escapes the call: the probe failure is
-- logged and swallowed (lines 299-304), the passthrough subprocess.run has
-- no check=True (line 317), and the render invocation raises
-- CalledProcessError when ffmpeg exits nonzero (line 365, check=True).
def FfmpegStep.raises : FfmpegStep → Option String
  | .probeFailed _ => none
  | .passthrough _ => none
  | .render _ _ ok => if ok then none else some msgEncoderFailed

/-! ## Variant A: the MoviePy backend

mode_moviepy (video_brand_automator.py lines 159-250).  Loading the video
is external; the loaded clip is reduced to its MediaInfo.  The composite
branch records the timing and the resolved scale. -/

structure MoviepyEnv where
  video_path : String
  load : Except String MediaInfo
  image_size : ℚ × ℚ

inductive MoviepyStep where
  | loadFailed (reason : String)
  | passthrough (warned : Bool)
  | composite (start_t dur_t scale : ℚ)
deriving DecidableEq

def mode_moviepy (env : MoviepyEnv) (start_pct duration_sec : ℚ)
    (scale : Option ℚ) (margin : ℚ) : MoviepyStep :=
  match env.load with
  | .error e => .loadFailed (msgCouldNotLoad ++ env.video_path
      ++ msgColonSep ++ e)
  | .ok video =>
    let t := get_overlay_timing video.duration start_pct duration_sec
    if t.2 ≤ 0 then .passthrough true
    else
      let target_scale := resolve_scale scale
        ((video.width : ℚ), (video.height : ℚ)) env.image_size margin
      .composite t.1 t.2 target_scale

-- The RuntimeError of the load failure is raised to the caller (line 175);
-- both other branches return normally.
def MoviepyStep.raises : MoviepyStep → Option String
  | .loadFailed e => some e
  | .passthrough _ => none
  | .composite _ _ _ => none

/-! ## Orchestrator: process_single_video

video_brand_automator.py lines 368-441, specialized to mode="ffmpeg" whose
external effects are fully captured by FfmpegEnv.  The existence check of
the output path is passed in as a Boolean. -/

inductive ProcStep where
  | skippedExists
  | rejectedPct
  | dispatched (s : FfmpegStep)
deriving DecidableEq

def process_single_video (out_exists overwrite : Bool) (start_percent : ℚ)
    (env : FfmpegEnv) (duration_sec : ℚ) (position : String)
    (scale : Option ℚ) (margin : ℚ) : ProcStep :=
  if overwrite = false ∧ out_exists = true then .skippedExists
  else
    let final_pct := normalize_start_pct start_percent
    if ¬(0 ≤ final_pct ∧ final_pct ≤ 1) then .rejectedPct
    else .dispatched
      (mode_ffmpeg_cli env final_pct duration_sec position scale margin
        overwrite)

def ProcStep.raises : ProcStep → Option String
  | .skippedExists => none
  | .rejectedPct => none
  | .dispatched s => s.raises

/-! ## Orchestrator: the batch execution loop

main, video_brand_automator.py lines 591-637.  One BatchJob carries the
per-job external data: the duration read by get_vid_duration (lines
504-514: none when the quick probe hits one of the caught OSError, IOError
or ValueError exceptions, in which case 0.0 is used), the existence of the
output path, and the environment the dispatched backend runs against. -/

structure BatchJob where
  vid_dur : Option ℚ
  out_exists : Bool
  env : FfmpegEnv

-- The exception escaping one iteration body for one job.
def job_result (overwrite : Bool) (start_percent duration_sec : ℚ)
    (position : String) (scale : Option ℚ) (margin : ℚ)
    (j : BatchJob) : Option String :=
  ProcStep.raises (process_single_video j.out_exists overwrite
    start_percent j.env duration_sec position scale margin)

-- One iteration of the loop at lines 598-621: the duration metric is added
-- first, then process_single_video runs inside try; on normal return the
-- processed counter is incremented, on an exception the error is logged
-- and the loop continues.  State: (count, total seconds, per-job log).
def main_loop_step (overwrite : Bool) (start_percent duration_sec : ℚ)
    (position : String) (scale : Option ℚ) (margin : ℚ)
    (st : Nat × ℚ × List (Option String)) (j : BatchJob) :
    Nat × ℚ × List (Option String) :=
  let d := j.vid_dur.getD 0
  match job_result overwrite start_percent duration_sec position scale
      margin j with
  | none => (st.1 + 1, st.2.1 + d, st.2.2 ++ [none])
  | some e => (st.1, st.2.1 + d, st.2.2 ++ [some e])

def main_loop (overwrite : Bool) (start_percent duration_sec : ℚ)
    (position : String) (scale : Option ℚ) (margin : ℚ)
    (jobs : List BatchJob) : Nat × ℚ × List (Option String) :=
  jobs.foldl
    (main_loop_step overwrite start_percent duration_sec position scale
      margin) (0, 0, [])

/-! ## File-system view of the orchestrator

For the skip-if-exists policy (process_single_video lines 386-397) the
relevant state is the file system itself, modelled as a map from paths to
file contents.  The dispatched backend is abstracted to a render function
that writes the output path. -/

def FileSys : Type := String → Option String

def run_job_fs (overwrite : Bool) (start_percent : ℚ)
    (render : FileSys → String → FileSys) (fs : FileSys) (out : String) :
    FileSys :=
  if overwrite = false ∧ (fs out).isSome = true then fs
  else if start_pct_valid start_percent = false then fs
  else render fs out

def run_batch_fs (overwrite : Bool) (start_percent : ℚ)
    (render : FileSys → String → FileSys) (fs : FileSys)
    (outs : List String) : FileSys :=
  outs.foldl (run_job_fs overwrite start_percent render) fs

/-! ## Position parsing

Two call sites parse a position string containing a comma:
video_brand_automator.py lines 402-414 and add_product_placement.py lines
339-349.  Both split on the comma, strip each part, and accept a part as a
number when part.replace(chr 46, empty, 1).isdigit() holds; an accepted
part is converted with float().  They differ in the failure path.  The
Python string primitives are given direct structural implementations over
the character list of the string. -/

-- Python str.split(sep) for a one-character separator.
def splitOnChar (sep : Char) : List Char → List (List Char)
  | [] => [[]]
  | c :: cs =>
    if c = sep then [] :: splitOnChar sep cs
    else
      match splitOnChar sep cs with
      | [] => [[c]]
      | h :: t => (c :: h) :: t

def pySplitComma (s : String) : List String :=
  (splitOnChar ',' s.data).map (fun cs => ⟨cs⟩)

-- Python str.strip(): whitespace removed from both ends.
def stripChars (cs : List Char) : List Char :=
  ((cs.dropWhile Char.isWhitespace).reverse.dropWhile
    Char.isWhitespace).reverse

def pyStrip (s : String) : String :=
  ⟨stripChars s.data⟩

-- Python test: "," in position.
def hasComma (s : String) : Bool :=
  s.data.contains ','

-- Python str.replace(".", "", 1): remove the first dot only.
def removeFirstDotAux : List Char → List Char
  | [] => []
  | c :: cs => if c = '.' then cs else c :: removeFirstDotAux cs

def removeFirstDot (s : String) : String :=
  ⟨removeFirstDotAux s.data⟩

-- Python str.isdigit: nonempty and every character a digit.
def pyIsDigit (s : String) : Bool :=
  !s.data.isEmpty && s.data.all Char.isDigit

def digitsToNat (cs : List Char) : ℕ :=
  cs.foldl (fun n c => 10 * n + (c.toNat - 48)) 0

-- Python float() on a string made of digits and at most one dot.
def parseDecimal (s : String) : ℚ :=
  match splitOnChar '.' s.data with
  | [a] => (digitsToNat a : ℚ)
  | [a, b] => (digitsToNat a : ℚ)
      + (digitsToNat b : ℚ) / (10 ^ b.length : ℚ)
  | _ => 0

-- The guarded conversion of video_brand_automator.py lines 407-408:
-- float(x) if x.replace(".", "", 1).isdigit() else None.
def parse_float_checked (s : String) : Option ℚ :=
  if pyIsDigit (removeFirstDot s) then some (parseDecimal s) else none

-- The split-and-strip applied by both call sites.
def posParts (position : String) : List String :=
  (pySplitComma position).map pyStrip

-- Result of the parsing block in video_brand_automator.py (lines 402-414):
-- either the original string is kept (no comma) or a numeric coordinate
-- pair is produced; any failure inside the try block raises ValueError,
-- which is caught and replaced by the coordinate (0.0, 0.0).
inductive PosArgV where
  | anchor (s : String)
  | coords (x y : ℚ)
deriving DecidableEq

def parse_position_vba (position : String) : PosArgV :=
  if hasComma position then
    match posParts position with
    | [x, y] =>
      match parse_float_checked x, parse_float_checked y with
      | some xv, some yv => .coords xv yv
      | _, _ => .coords 0 0
    | _ => .coords 0 0
  else .anchor position

-- Result of the parsing block in add_product_placement.py (lines 339-349):
-- a component that fails the digit check is KEPT AS A STRING in the tuple
-- (x = float(x) if ... else x), and when the split does not yield exactly
-- two parts the ValueError of tuple unpacking is caught by "except
-- ValueError: pass", leaving the original string in place.
inductive PyVal where
  | num (q : ℚ)
  | str (s : String)
deriving DecidableEq

inductive PosArgA where
  | anchor (s : String)
  | pair (x y : PyVal)
deriving DecidableEq

def float_or_keep (s : String) : PyVal :=
  if pyIsDigit (removeFirstDot s) then .num (parseDecimal s) else .str s

def parse_position_app (position : String) : PosArgA :=
  if hasComma position then
    match posParts position with
    | [x, y] => .pair (float_or_keep x) (float_or_keep y)
    | _ => .anchor position
  else .anchor position

-- Whether an add_product_placement position resolved to a numeric
-- coordinate pair.
def PosArgA.isNumericPair : PosArgA → Bool
  | .pair (.num _) (.num _) => true
  | _ => false

/-! ## Concrete fixtures used by witnesses and counterexamples -/

def strVideoPath : String := "v.mp4"

def strImagePath : String := "logo.png"

def strOutPath : String := "output/v_branded.mp4"

def strContent : String := "bytes"

def strAbcDef : String := "abc,def"

def strAbc : String := "abc"

def strDef : String := "def"

def strQW : String := "q,w"

def infoVideo : MediaInfo := ⟨640, 360, 10⟩

def infoImage : MediaInfo := ⟨100, 100, 0⟩

def envOk : FfmpegEnv :=
  ⟨strVideoPath, strImagePath, .ok infoVideo, .ok infoImage, true⟩

def envEncoderFail : FfmpegEnv :=
  ⟨strVideoPath, strImagePath, .ok infoVideo, .ok infoImage, false⟩

def envProbeMissing : FfmpegEnv :=
  ⟨strVideoPath, strImagePath, .fileNotFound, .fileNotFound, true⟩

def envProbeUnreadable : FfmpegEnv :=
  ⟨strVideoPath, strImagePath, .failed strContent, .fileNotFound, true⟩

def jobOk : BatchJob := ⟨some 10, false, envOk⟩

def jobEncoderFail : BatchJob := ⟨some 10, false, envEncoderFail⟩

-- A render function for the abstract file system: writes the output path,
-- leaves every other path alone.
def renderWrite (fs : FileSys) (out : String) : FileSys :=
  fun p => if p = out then some strContent else fs p

def emptyFs : FileSys := fun _ => none

def menvOk : MoviepyEnv := ⟨strVideoPath, Except.ok infoVideo, (100, 100)⟩

def strQ : String := "q"

def strW : String := "w"

/-! ## Helper lemmas -/

-- Full characterization of the batch loop fold: the processed counter
-- counts the jobs whose body returned normally, the duration metric sums
-- every discovered duration, and every job leaves one log entry.
theorem main_loop_foldl_spec (ow : Bool) (sp dur : ℚ) (pos : String)
    (sc : Option ℚ) (m : ℚ) (jobs : List BatchJob)
    (st : Nat × ℚ × List (Option String)) :
    jobs.foldl (main_loop_step ow sp dur pos sc m) st
      = (st.1 + (jobs.filter
            (fun j => (job_result ow sp dur pos sc m j).isNone)).length,
         st.2.1 + (jobs.map (fun j => j.vid_dur.getD 0)).sum,
         st.2.2 ++ jobs.map (job_result ow sp dur pos sc m)) := by
  induction jobs generalizing st with
  | nil => simp
  | cons j rest ih =>
    rw [List.foldl_cons, ih]
    cases h : job_result ow sp dur pos sc m j with
    | none =>
      simp only [main_loop_step, h, List.filter_cons, List.map_cons,
        List.sum_cons, Option.isNone_none, if_pos, List.length_cons]
      refine congrArg₂ _ (by omega) (congrArg₂ _ (by ring) ?_)
      simp
    | some e =>
      simp only [main_loop_step, h, List.filter_cons, List.map_cons,
        List.sum_cons, Option.isNone_some, List.length_cons]
      refine congrArg₂ _ (by simp) (congrArg₂ _ (by ring) ?_)
      simp

-- The two probe failure messages differ for every binary name, path and
-- underlying error: one starts with the letter C, the other with F.
theorem probe_msgs_distinct (b p e : String) :
    msgCouldNotFind ++ b ++ msgDownload
      ≠ msgProbeFailedFor ++ p ++ msgColonSep ++ e := by
  intro h
  have h2 := congrArg (fun s => s.data.head?) h
  simp only [String.data_append] at h2
  have h3 : some 'C' = some 'F' := h2
  simp at h3

-- A batch pass with overwrite disabled never changes a path that already
-- holds a file, provided the abstract render only writes its own output
-- path.
theorem run_batch_fs_preserves (sp : ℚ)
    (render : FileSys → String → FileSys)
    (hloc : ∀ (fs : FileSys) (o q : String), q ≠ o → render fs o q = fs q)
    (outs : List String) (fs : FileSys) (q : String)
    (hq : (fs q).isSome = true) :
    run_batch_fs false sp render fs outs q = fs q := by
  induction outs generalizing fs with
  | nil => rfl
  | cons o rest ih =>
    show run_batch_fs false sp render (run_job_fs false sp render fs o)
        rest q = fs q
    by_cases ho : (fs o).isSome = true
    · have hskip : run_job_fs false sp render fs o = fs := by
        simp [run_job_fs, ho]
      rw [hskip]
      exact ih fs hq
    · by_cases hvp : start_pct_valid sp = false
      · have hrej : run_job_fs false sp render fs o = fs := by
          simp [run_job_fs, ho, hvp]
        rw [hrej]
        exact ih fs hq
      · have hrun : run_job_fs false sp render fs o = render fs o := by
          simp [run_job_fs, ho, hvp]
        have hqo : q ≠ o := by
          intro h
          rw [h] at hq
          exact ho hq
        have hpt : render fs o q = fs q := hloc fs o q hqo
        rw [hrun]
        have := ih (render fs o) (by rw [hpt]; exact hq)
        rw [this, hpt]

-- A component accepted by the digit check resolves to the same number at
-- both call sites.
theorem float_or_keep_of_checked (s : String) (q : ℚ)
    (h : parse_float_checked s = some q) :
    float_or_keep s = PyVal.num q := by
  unfold parse_float_checked at h
  unfold float_or_keep
  split_ifs at h ⊢ with hd
  rw [Option.some.injEq] at h
  rw [h]

/-- C1: get_overlay_timing returns start = D * p; when start is at or past
the end of the video the actual duration is 0, otherwise it is the minimum
of the requested duration and the remaining time; the actual duration is
never negative (for D > 0, p in the unit interval, r > 0). -/
theorem C1_overlay_timing (D p r : ℚ) (hD : 0 < D) (hp0 : 0 ≤ p)
    (hp1 : p ≤ 1) (hr : 0 < r) :
    (get_overlay_timing D p r).1 = D * p
    ∧ ((get_overlay_timing D p r).1 ≥ D → (get_overlay_timing D p r).2 = 0)
    ∧ ((get_overlay_timing D p r).1 < D →
        (get_overlay_timing D p r).2 = min r (D - (get_overlay_timing D p r).1))
    ∧ 0 ≤ (get_overlay_timing D p r).2 := by
  simp only [get_overlay_timing]
  split_ifs with h
  · exact ⟨rfl, fun _ => rfl, fun hlt => absurd h (not_le.mpr hlt), le_refl 0⟩
  · have hlt : D * p < D := lt_of_not_le h
    exact ⟨rfl, fun hge => absurd hge h, fun _ => rfl,
      le_min hr.le (by linarith)⟩

theorem C1_overlay_timing_witness :
    (get_overlay_timing 10 (3 / 4) 2).1 = 10 * (3 / 4)
    ∧ 0 ≤ (get_overlay_timing 10 (3 / 4) 2).2 := by
  have h := C1_overlay_timing 10 (3 / 4) 2 (by norm_num) (by norm_num)
    (by norm_num) (by norm_num)
  exact ⟨h.1, h.2.2.2⟩

/-- C2: resolve_scale returns an explicit scale unchanged; with no explicit
scale it returns the minimum of safe_width/asset_width and
safe_height/asset_height where each safe dimension shrinks the container by
2 * margin, this value is positive, and the asset scaled by it fits in the
safe area on both axes; container 640x360 with asset 100x100 and margin
0.05 yields 3.24 = 81/25. -/
theorem C2_smart_scale (vw vh iw ih m : ℚ) (hvw : 0 < vw) (hvh : 0 < vh)
    (hiw : 0 < iw) (hih : 0 < ih) (hm0 : 0 ≤ m) (hm : m < 1 / 2) :
    (∀ s : ℚ, resolve_scale (some s) (vw, vh) (iw, ih) m = s)
    ∧ resolve_scale none (vw, vh) (iw, ih) m
        = min (vw * (1 - 2 * m) / iw) (vh * (1 - 2 * m) / ih)
    ∧ 0 < resolve_scale none (vw, vh) (iw, ih) m
    ∧ iw * resolve_scale none (vw, vh) (iw, ih) m ≤ vw * (1 - 2 * m)
    ∧ ih * resolve_scale none (vw, vh) (iw, ih) m ≤ vh * (1 - 2 * m)
    ∧ resolve_scale none (640, 360) (100, 100) (1 / 20) = 81 / 25 := by
  have hsw : 0 < vw * (1 - 2 * m) := by nlinarith
  have hsh : 0 < vh * (1 - 2 * m) := by nlinarith
  have hval : resolve_scale none (vw, vh) (iw, ih) m
      = min (vw * (1 - 2 * m) / iw) (vh * (1 - 2 * m) / ih) := rfl
  refine ⟨fun s => rfl, hval, ?_, ?_, ?_, ?_⟩
  · rw [hval]
    exact lt_min (div_pos hsw hiw) (div_pos hsh hih)
  · rw [hval]
    calc iw * min (vw * (1 - 2 * m) / iw) (vh * (1 - 2 * m) / ih)
        ≤ iw * (vw * (1 - 2 * m) / iw) :=
          mul_le_mul_of_nonneg_left (min_le_left _ _) hiw.le
      _ = vw * (1 - 2 * m) := by field_simp
  · rw [hval]
    calc ih * min (vw * (1 - 2 * m) / iw) (vh * (1 - 2 * m) / ih)
        ≤ ih * (vh * (1 - 2 * m) / ih) :=
          mul_le_mul_of_nonneg_left (min_le_right _ _) hih.le
      _ = vh * (1 - 2 * m) := by field_simp
  · show min (640 * (1 - 2 * (1 / 20)) / 100) (360 * (1 - 2 * (1 / 20)) / 100)
        = 81 / 25
    norm_num

theorem C2_smart_scale_witness :
    resolve_scale none ((640 : ℚ), (360 : ℚ)) (100, 100) (1 / 20) = 81 / 25 :=
  (C2_smart_scale 640 360 100 100 (1 / 20) (by norm_num) (by norm_num)
    (by norm_num) (by norm_num) (by norm_num) (by norm_num)).2.2.2.2.2

/-- C3: normalization divides the raw start value by 100 exactly when it is
strictly greater than 1, and process_single_video rejects the job (no
render dispatched) exactly when the resulting fraction lies outside the
unit interval; raw 75 and raw 0.75 both normalize to 0.75, and raw 105 is
out of range. -/
theorem C3_percentage_normalization (raw : ℚ) :
    (1 < raw → normalize_start_pct raw = raw / 100)
    ∧ (raw ≤ 1 → normalize_start_pct raw = raw)
    ∧ (∀ (env : FfmpegEnv) (dur : ℚ) (pos : String) (sc : Option ℚ)
        (m : ℚ),
        process_single_video false true raw env dur pos sc m
            = ProcStep.rejectedPct
          ↔ ¬(0 ≤ normalize_start_pct raw ∧ normalize_start_pct raw ≤ 1))
    ∧ normalize_start_pct 75 = 3 / 4
    ∧ normalize_start_pct (3 / 4) = 3 / 4
    ∧ ¬(0 ≤ normalize_start_pct 105 ∧ normalize_start_pct 105 ≤ 1) := by
  refine ⟨?_, ?_, ?_, ?_, ?_, ?_⟩
  · intro h
    simp only [normalize_start_pct, if_pos h]
  · intro h
    simp only [normalize_start_pct, if_neg (not_lt.mpr h)]
  · intro env dur pos sc m
    simp only [process_single_video]
    by_cases hv : 0 ≤ normalize_start_pct raw ∧ normalize_start_pct raw ≤ 1
    · simp [hv]
    · simp [hv]
  · norm_num [normalize_start_pct]
  · norm_num [normalize_start_pct]
  · norm_num [normalize_start_pct]

theorem C3_percentage_normalization_witness :
    process_single_video false true 105
        ⟨"v.mp4", "logo.png", ProbeRaw.fileNotFound, ProbeRaw.fileNotFound,
          true⟩ 5 strCenter (some 1) 0
      = ProcStep.rejectedPct :=
  ((C3_percentage_normalization 105).2.2.1
      ⟨"v.mp4", "logo.png", ProbeRaw.fileNotFound, ProbeRaw.fileNotFound,
        true⟩ 5 strCenter (some 1) 0).mpr
    (C3_percentage_normalization 105).2.2.2.2.2

/-- C4 counterexample: the filter that Variant B builds for a job with
start 7.5 and actual duration 2 gates the overlay with
between(t, 7.5, 9.5), and the ffmpeg between test is inclusive at the
upper bound, so the overlay is visible at t = 9.5 even though 9.5 is not
inside the closed-open interval from 7.5 to 9.5. -/
theorem C4_counterexample :
    mode_ffmpeg_cli envOk (3 / 4) 2 strCenter (some 1) 0 true
        = FfmpegStep.render ⟨1, -1, xyCenter, 15 / 2, 19 / 2⟩ true true
    ∧ FilterGraph.visibleAt ⟨1, -1, xyCenter, 15 / 2, 19 / 2⟩ (19 / 2)
        = true
    ∧ ¬((19 / 2 : ℚ) < 15 / 2 + 2) := by
  refine ⟨?_, ?_, by norm_num⟩
  · norm_num [mode_ffmpeg_cli, envOk, get_media_info_ffmpeg, infoVideo,
      infoImage, get_overlay_timing, resolve_scale, pos_map]
  · norm_num [FilterGraph.visibleAt, ffmpeg_between]

/-- C4 (amended): for every job rendered by Variant B with positive actual
duration, the single filter expression scales the image stream by the
resolved factor with the aspect-ratio-preserving height argument -1 and
gates the overlay so it is visible exactly during the closed interval from
start_time to start_time + actual_duration, inclusive of BOTH endpoints
(the ffmpeg between test is inclusive at the end, not exclusive). -/
theorem C4_filter_gate (env : FfmpegEnv) (v i : MediaInfo) (p r m : ℚ)
    (pos : String) (sc : Option ℚ) (ow : Bool)
    (hv : env.vprobe = ProbeRaw.ok v) (hi : env.iprobe = ProbeRaw.ok i)
    (hd : 0 < (get_overlay_timing v.duration p r).2) :
    mode_ffmpeg_cli env p r pos sc m ow
      = FfmpegStep.render
          ⟨resolve_scale sc ((v.width : ℚ), (v.height : ℚ))
              ((i.width : ℚ), (i.height : ℚ)) m, -1, pos_map pos,
            (get_overlay_timing v.duration p r).1,
            (get_overlay_timing v.duration p r).1
              + (get_overlay_timing v.duration p r).2⟩ ow env.encoder_ok
    ∧ (∀ x : ℚ,
        FilterGraph.visibleAt
            ⟨resolve_scale sc ((v.width : ℚ), (v.height : ℚ))
                ((i.width : ℚ), (i.height : ℚ)) m, -1, pos_map pos,
              (get_overlay_timing v.duration p r).1,
              (get_overlay_timing v.duration p r).1
                + (get_overlay_timing v.duration p r).2⟩ x = true
          ↔ (get_overlay_timing v.duration p r).1 ≤ x
            ∧ x ≤ (get_overlay_timing v.duration p r).1
                + (get_overlay_timing v.duration p r).2) := by
  constructor
  · have hne := not_le.mpr hd
    simp [mode_ffmpeg_cli, get_media_info_ffmpeg, hv, hi, hne]
  · intro x
    simp [FilterGraph.visibleAt, ffmpeg_between, Bool.and_eq_true,
      decide_eq_true_eq]

theorem C4_filter_gate_witness :
    mode_ffmpeg_cli envOk (3 / 4) 2 strCenter (some 1) 0 true
      = FfmpegStep.render
          ⟨resolve_scale (some 1)
              ((infoVideo.width : ℚ), (infoVideo.height : ℚ))
              ((infoImage.width : ℚ), (infoImage.height : ℚ)) 0, -1,
            pos_map strCenter,
            (get_overlay_timing infoVideo.duration (3 / 4) 2).1,
            (get_overlay_timing infoVideo.duration (3 / 4) 2).1
              + (get_overlay_timing infoVideo.duration (3 / 4) 2).2⟩
          true true :=
  (C4_filter_gate envOk infoVideo infoImage (3 / 4) 2 0 strCenter (some 1)
    true rfl rfl (by norm_num [get_overlay_timing, infoVideo])).1

/-- C5: when the resolved actual duration is zero both render variants copy
the source video through unchanged with a recorded warning and report
success: no overlay is built and no exception is raised. -/
theorem C5_zero_duration_passthrough (env : FfmpegEnv)
    (menv : MoviepyEnv) (v i w : MediaInfo) (p r p2 r2 m m2 : ℚ)
    (pos : String) (sc sc2 : Option ℚ) (ow : Bool)
    (hv : env.vprobe = ProbeRaw.ok v) (hi : env.iprobe = ProbeRaw.ok i)
    (h0 : (get_overlay_timing v.duration p r).2 = 0)
    (hl : menv.load = Except.ok w)
    (h0m : (get_overlay_timing w.duration p2 r2).2 = 0) :
    mode_ffmpeg_cli env p r pos sc m ow = FfmpegStep.passthrough true
    ∧ FfmpegStep.raises (mode_ffmpeg_cli env p r pos sc m ow) = none
    ∧ mode_moviepy menv p2 r2 sc2 m2 = MoviepyStep.passthrough true
    ∧ MoviepyStep.raises (mode_moviepy menv p2 r2 sc2 m2) = none := by
  have hf : mode_ffmpeg_cli env p r pos sc m ow
      = FfmpegStep.passthrough true := by
    simp [mode_ffmpeg_cli, get_media_info_ffmpeg, hv, hi, h0]
  have hm : mode_moviepy menv p2 r2 sc2 m2
      = MoviepyStep.passthrough true := by
    simp [mode_moviepy, hl, h0m]
  exact ⟨hf, by rw [hf]; rfl, hm, by rw [hm]; rfl⟩

theorem C5_zero_duration_passthrough_witness :
    mode_ffmpeg_cli envOk 1 5 strCenter (some 1) 0 true
        = FfmpegStep.passthrough true
    ∧ mode_moviepy menvOk 1 5 (some 1) 0 = MoviepyStep.passthrough true := by
  have h := C5_zero_duration_passthrough envOk menvOk infoVideo infoImage
    infoVideo 1 5 1 5 0 0 strCenter (some 1) (some 1) true rfl rfl
    (by norm_num [get_overlay_timing, infoVideo]) rfl
    (by norm_num [get_overlay_timing, infoVideo])
  exact ⟨h.1, h.2.2.1⟩

/-- C6: with overwrite false an already-existing output makes
process_single_video return immediately without touching the file system,
and running the same batch twice with overwrite false leaves every output
of the first run byte-identical: the second pass performs no write to any
path that exists after the first pass. -/
theorem C6_skip_existing (render : FileSys → String → FileSys)
    (hloc : ∀ (fs : FileSys) (o q : String), q ≠ o → render fs o q = fs q)
    (sp : ℚ) (fs : FileSys) (outs : List String) :
    (∀ (g : FileSys) (o : String), (g o).isSome = true →
        run_job_fs false sp render g o = g)
    ∧ (∀ q : String,
        ((run_batch_fs false sp render fs outs) q).isSome = true →
        run_batch_fs false sp render
            (run_batch_fs false sp render fs outs) outs q
          = run_batch_fs false sp render fs outs q) := by
  constructor
  · intro g o hg
    simp [run_job_fs, hg]
  · intro q hq
    exact run_batch_fs_preserves sp render hloc outs
      (run_batch_fs false sp render fs outs) q hq

theorem C6_skip_existing_witness :
    run_batch_fs false 75 renderWrite
        (run_batch_fs false 75 renderWrite emptyFs [strOutPath])
        [strOutPath] strOutPath
      = run_batch_fs false 75 renderWrite emptyFs [strOutPath]
          strOutPath := by
  have hloc : ∀ (fs : FileSys) (o q : String), q ≠ o →
      renderWrite fs o q = fs q := by
    intro fs o q h
    simp [renderWrite, h]
  have hv : start_pct_valid 75 = true := by
    norm_num [start_pct_valid, normalize_start_pct]
  have hq : ((run_batch_fs false 75 renderWrite emptyFs [strOutPath])
      strOutPath).isSome = true := by
    simp [run_batch_fs, run_job_fs, hv, renderWrite, emptyFs]
  exact (C6_skip_existing renderWrite hloc 75 emptyFs [strOutPath]).2
    strOutPath hq

/-- C7: every per-job failure is caught at the job boundary and logged with
its reason while the remaining jobs still run: the batch loop leaves one
log entry per job and never aborts, the processed count equals the number
of jobs whose body returned normally, and in the concrete 3-job batch
where the middle job fails in its encoder invocation the other two
complete and the succeeded count is 2. -/
theorem C7_failure_isolation (ow : Bool) (sp dur : ℚ) (pos : String)
    (sc : Option ℚ) (m : ℚ) (jobs : List BatchJob) :
    (main_loop ow sp dur pos sc m jobs).2.2
        = jobs.map (job_result ow sp dur pos sc m)
    ∧ ((main_loop ow sp dur pos sc m jobs).2.2).length = jobs.length
    ∧ (main_loop ow sp dur pos sc m jobs).1
        = (jobs.filter
            (fun j => (job_result ow sp dur pos sc m j).isNone)).length
    ∧ main_loop true 75 5 strCenter (some 1) 0
          [jobOk, jobEncoderFail, jobOk]
        = (2, 30, [none, some msgEncoderFailed, none]) := by
  have hspec := main_loop_foldl_spec ow sp dur pos sc m jobs (0, 0, [])
  refine ⟨?_, ?_, ?_, ?_⟩
  · rw [main_loop, hspec]; simp
  · rw [main_loop, hspec]; simp
  · rw [main_loop, hspec]; simp
  · rw [main_loop, main_loop_foldl_spec]
    have h1 : job_result true 75 5 strCenter (some 1) 0 jobOk = none := by
      norm_num [job_result, process_single_video, jobOk,
        normalize_start_pct, mode_ffmpeg_cli, envOk,
        get_media_info_ffmpeg, infoVideo, infoImage, get_overlay_timing,
        resolve_scale, pos_map, ProcStep.raises, FfmpegStep.raises]
    have h2 : job_result true 75 5 strCenter (some 1) 0 jobEncoderFail
        = some msgEncoderFailed := by
      norm_num [job_result, process_single_video, jobEncoderFail,
        normalize_start_pct, mode_ffmpeg_cli, envEncoderFail,
        get_media_info_ffmpeg, infoVideo, infoImage, get_overlay_timing,
        resolve_scale, pos_map, ProcStep.raises, FfmpegStep.raises]
    simp only [List.filter_cons, List.filter_nil, List.map_cons,
      List.map_nil, List.sum_cons, List.sum_nil, h1, h2]
    norm_num [jobOk, jobEncoderFail]

/-- C8: a media probe failure is surfaced as a job-level failure whose
reason distinguishes the missing ffprobe binary from an unreadable file
(the two messages always differ), and the failure is never fatal: the
probeFailed step raises nothing and the batch loop still leaves one log
entry per job. -/
theorem C8_probe_failure_reasons (b path path2 e : String)
    (env : FfmpegEnv) (p r m sp dur : ℚ) (pos : String) (sc : Option ℚ)
    (ow : Bool) (jobs : List BatchJob) :
    get_media_info_ffmpeg b path ProbeRaw.fileNotFound
        ≠ get_media_info_ffmpeg b path2 (ProbeRaw.failed e)
    ∧ (env.vprobe = ProbeRaw.fileNotFound →
        mode_ffmpeg_cli env p r pos sc m ow
          = FfmpegStep.probeFailed
              (msgCouldNotFind ++ ffprobeBin ++ msgDownload))
    ∧ (env.vprobe = ProbeRaw.failed e →
        mode_ffmpeg_cli env p r pos sc m ow
          = FfmpegStep.probeFailed
              (msgProbeFailedFor ++ env.video_path ++ msgColonSep ++ e))
    ∧ (∀ s : String, FfmpegStep.raises (FfmpegStep.probeFailed s) = none)
    ∧ ((main_loop ow sp dur pos sc m jobs).2.2).length = jobs.length := by
  refine ⟨?_, ?_, ?_, fun s => rfl, ?_⟩
  · simp only [get_media_info_ffmpeg, ne_eq, Except.error.injEq]
    exact probe_msgs_distinct b path2 e
  · intro hj
    simp [mode_ffmpeg_cli, get_media_info_ffmpeg, hj]
  · intro hj
    simp [mode_ffmpeg_cli, get_media_info_ffmpeg, hj]
  · rw [main_loop, main_loop_foldl_spec]; simp

theorem C8_probe_failure_reasons_witness :
    mode_ffmpeg_cli envProbeMissing (3 / 4) 5 strCenter (some 1) 0 true
      = FfmpegStep.probeFailed
          (msgCouldNotFind ++ ffprobeBin ++ msgDownload) :=
  (C8_probe_failure_reasons ffprobeBin strVideoPath strVideoPath strContent
    envProbeMissing (3 / 4) 5 0 0 0 strCenter (some 1) true []).2.1 rfl

/-- C9 counterexample: the position string abc,def contains a comma and
both components fail the numeric parse, yet the add_product_placement
call site resolves it to the pair of the original strings rather than to
any default coordinate, so the parsing does not fall back to a defined
default coordinate at that call site. -/
theorem C9_counterexample :
    hasComma strAbcDef = true
    ∧ parse_float_checked strAbc = none
    ∧ parse_float_checked strDef = none
    ∧ parse_position_app strAbcDef
        = PosArgA.pair (PyVal.str strAbc) (PyVal.str strDef)
    ∧ PosArgA.isNumericPair (parse_position_app strAbcDef) = false := by
  refine ⟨?_, ?_, ?_, ?_, ?_⟩ <;> decide

/-- C9 (amended): both call sites split the position on the comma, strip
whitespace, and attempt the digit-checked numeric parse of each component;
when both components parse the position is the explicit numeric pair at
both call sites, and no parse exception propagates; on failure the call
sites diverge: video_brand_automator falls back to the default coordinate
(0, 0), while add_product_placement keeps a failed component as a string
inside the pair and keeps the original position string when the split
does not yield exactly two parts. -/
theorem C9_position_parsing (position x y : String) (qx qy : ℚ) :
    (hasComma position = true → posParts position = [x, y] →
      parse_float_checked x = some qx → parse_float_checked y = some qy →
      parse_position_vba position = PosArgV.coords qx qy
      ∧ parse_position_app position
          = PosArgA.pair (PyVal.num qx) (PyVal.num qy))
    ∧ (hasComma position = true → posParts position = [x, y] →
      (parse_float_checked x = none ∨ parse_float_checked y = none) →
      parse_position_vba position = PosArgV.coords 0 0)
    ∧ (hasComma position = true → posParts position = [x, y] →
      parse_position_app position
        = PosArgA.pair (float_or_keep x) (float_or_keep y))
    ∧ (hasComma position = true →
      (∀ a b : String, posParts position ≠ [a, b]) →
      parse_position_vba position = PosArgV.coords 0 0
      ∧ parse_position_app position = PosArgA.anchor position)
    ∧ (hasComma position = false →
      parse_position_vba position = PosArgV.anchor position
      ∧ parse_position_app position = PosArgA.anchor position) := by
  refine ⟨?_, ?_, ?_, ?_, ?_⟩
  · intro hc hp hx hy
    constructor
    · simp [parse_position_vba, hc, hp, hx, hy]
    · have hfx := float_or_keep_of_checked x qx hx
      have hfy := float_or_keep_of_checked y qy hy
      simp [parse_position_app, hc, hp, hfx, hfy]
  · intro hc hp hxy
    cases hy2 : parse_float_checked y with
    | none =>
      cases hx2 : parse_float_checked x with
      | none => simp [parse_position_vba, hc, hp, hx2, hy2]
      | some v => simp [parse_position_vba, hc, hp, hx2, hy2]
    | some v =>
      cases hx2 : parse_float_checked x with
      | none => simp [parse_position_vba, hc, hp, hx2, hy2]
      | some w =>
        rcases hxy with h | h
        · rw [hx2] at h; cases h
        · rw [hy2] at h; cases h
  · intro hc hp
    simp [parse_position_app, hc, hp]
  · intro hc hnp
    rcases hval : posParts position with _ | ⟨a, _ | ⟨b, _ | ⟨c, l⟩⟩⟩
    · constructor <;> simp [parse_position_vba, parse_position_app, hc,
        hval]
    · constructor <;> simp [parse_position_vba, parse_position_app, hc,
        hval]
    · exact absurd hval (hnp a b)
    · constructor <;> simp [parse_position_vba, parse_position_app, hc,
        hval]
  · intro hc
    constructor <;> simp [parse_position_vba, parse_position_app, hc]

theorem C9_position_parsing_witness :
    parse_position_vba strQW = PosArgV.coords 0 0 :=
  (C9_position_parsing strQW strQ strW 0 0).2.1 (by decide) (by decide)
    (Or.inl (by decide))

/-- C10: the processed counter counts exactly the jobs whose
process_single_video call returned without raising, which includes jobs
skipped because the output exists with overwrite false, jobs rejected for
an invalid start fraction, and ffmpeg-mode jobs whose probe failed; and
the per-job source duration (0 when unreadable) is added to the
total-seconds metric for every job regardless of its outcome. -/
theorem C10_processed_counter (ow : Bool) (sp dur : ℚ) (pos : String)
    (sc : Option ℚ) (m : ℚ) (jobs : List BatchJob) :
    (main_loop ow sp dur pos sc m jobs).2.1
        = (jobs.map (fun j => j.vid_dur.getD 0)).sum
    ∧ (main_loop ow sp dur pos sc m jobs).1
        = (jobs.filter
            (fun j => (job_result ow sp dur pos sc m j).isNone)).length
    ∧ (∀ j : BatchJob, j.out_exists = true →
        job_result false sp dur pos sc m j = none)
    ∧ (∀ j : BatchJob, start_pct_valid sp = false →
        job_result ow sp dur pos sc m j = none)
    ∧ (∀ j : BatchJob, j.env.vprobe = ProbeRaw.fileNotFound →
        job_result ow sp dur pos sc m j = none)
    ∧ (∀ (j : BatchJob) (msg : String),
        j.env.vprobe = ProbeRaw.failed msg →
        job_result ow sp dur pos sc m j = none) := by
  have hspec := main_loop_foldl_spec ow sp dur pos sc m jobs (0, 0, [])
  refine ⟨?_, ?_, ?_, ?_, ?_, ?_⟩
  · rw [main_loop, hspec]; simp
  · rw [main_loop, hspec]; simp
  · intro j hj
    simp [job_result, process_single_video, hj, ProcStep.raises]
  · intro j hv
    simp only [start_pct_valid, decide_eq_false_iff_not] at hv
    simp only [job_result, process_single_video]
    split_ifs with h1 <;> rfl
  · intro j hj
    simp only [job_result, process_single_video]
    split_ifs with h1 h2
    · rfl
    · simp [mode_ffmpeg_cli, get_media_info_ffmpeg, hj, ProcStep.raises,
        FfmpegStep.raises]
    · rfl
  · intro j msg hj
    simp only [job_result, process_single_video]
    split_ifs with h1 h2
    · rfl
    · simp [mode_ffmpeg_cli, get_media_info_ffmpeg, hj, ProcStep.raises,
        FfmpegStep.raises]
    · rfl

theorem C10_processed_counter_witness :
    job_result true 75 5 strCenter (some 1) 0 ⟨some 10, false,
      envProbeMissing⟩ = none :=
  (C10_processed_counter true 75 5 strCenter (some 1) 0 []).2.2.2.2.1
    ⟨some 10, false, envProbeMissing⟩ rfl
